import Mathlib

/-!
Verification of the tracking-sheet extraction logic of
`generate_tracking.py` (FY26 budget tracking page generator).

The spreadsheet (a pandas DataFrame) is modelled as a list of rows of
cells.  The script only ever observes a cell through its two coercions
`safe_str` (trimmed text, `""` for NaN) and `safe_float` (numeric value,
`0.0` default), so a cell is embedded as that pair of views; a missing
or out-of-range cell yields the pair `("", 0)`, exactly what the
coercions return for NaN and what the `df.shape[1] > k` guards default
to.  Monetary amounts are rationals.  File-system access (`read_excel`,
`Path(path).name`) is outside the embedding: extraction is a total
function of the grid.
-/

/-- One occurrence check step: is `pat` an initial segment of `l`?
(Embeds the prefix part of Python's `in` substring operator.) -/
def startsWithList : List Char → List Char → Bool
  | [], _ => true
  | _ :: _, [] => false
  | a :: as, b :: bs => a == b && startsWithList as bs

/-- `hasSubstr pat l`: does `pat` occur contiguously inside `l`?
Embeds Python's `pat in l` on strings. -/
def hasSubstr (pat : List Char) : List Char → Bool
  | [] => pat.isEmpty
  | c :: cs => startsWithList pat (c :: cs) || hasSubstr pat cs

/-- Python `pat in hay` for strings (contiguous substring test). -/
def strContains (hay pat : String) : Bool :=
  hasSubstr pat.data hay.data

/-- Python `str.upper()` (ASCII case mapping, as used by the script's
all-ASCII labels). -/
def pyUpper (s : String) : String := ⟨s.data.map Char.toUpper⟩

/-- Python `str.lower()` (ASCII case mapping). -/
def pyLower (s : String) : String := ⟨s.data.map Char.toLower⟩

/-- Python `s.endswith(t)`. -/
def strEndsWith (s t : String) : Bool :=
  startsWithList t.data.reverse s.data.reverse

/-- A spreadsheet cell, represented by the two views the script uses:
`sval` is what `safe_str` returns for it (stripped text, `""` for NaN)
and `fval` what `safe_float` returns (numeric value, `0.0` default for
non-numeric cells). -/
structure Cell where
  sval : String
  fval : ℚ
deriving DecidableEq

/-- The blank cell: a NaN / missing / out-of-range cell as observed via
`safe_str` (`""`) and `safe_float` (`0.0`). -/
def blankCell : Cell := ⟨"", 0⟩

/-- The DataFrame: rows of cells. -/
def Grid := List (List Cell)

/-- `df.iloc[i, j]` as observed through the safe coercions; missing
positions give the blank cell (matching NaN padding and the
`df.shape[1] > k` guards' defaults). -/
def cellAt (g : Grid) (i j : ℕ) : Cell :=
  (((g.getD i []).getD j blankCell))

/-- `safe_str(df.iloc[i, j])`. -/
def sAt (g : Grid) (i j : ℕ) : String := (cellAt g i j).sval

/-- `safe_float(df.iloc[i, j])`. -/
def fAt (g : Grid) (i j : ℕ) : ℚ := (cellAt g i j).fval

/-- The `row(i)` helper of `parse_tracking_file`: one row's typed
snapshot (column indices 4,3,2,1 and B=5, A=6, C=7, AV=8). -/
structure RowData where
  label : String
  cat : String
  sectionNum : ℚ
  fund : String
  budget : ℚ
  actuals : ℚ
  committed : ℚ
  available : ℚ
deriving DecidableEq

/-- `row(i)` from the source: build the typed row snapshot. -/
def row (g : Grid) (i : ℕ) : RowData where
  label := sAt g i 4
  cat := sAt g i 3
  sectionNum := fAt g i 2
  fund := sAt g i 1
  budget := fAt g i 5
  actuals := fAt g i 6
  committed := fAt g i 7
  available := fAt g i 8

/-- `find_row(label_col, pattern, start)`: first row index `i ≥ start`
whose column `label_col` contains `pattern` case-insensitively, else
`None`. -/
def find_row (g : Grid) (labelCol : ℕ) (pattern : String) (start : ℕ) : Option ℕ :=
  ((List.range g.length).drop start).find? fun i =>
    strContains (pyLower (sAt g i labelCol)) (pyLower pattern)

/-- The fixed category-code map `cat_map` (line 95 of the source),
keys carrying the `.0` suffix. -/
def cat_map : List (String × String) :=
  [("50.0", "Studios/Courses"),
   ("54.0", "Chair Expenses"),
   ("55.0", "Department Administrative"),
   ("56.0", "Admissions & Recruitment"),
   ("58.0", "Promotion of Department"),
   ("61.0", "Departmental Events"),
   ("62.0", "Lecture Series"),
   ("503.0", "Exhibitions"),
   ("505.0", "Painting/Drawing"),
   ("506.0", "Printmaking"),
   ("507.0", "Sculpture"),
   ("509.0", "Video"),
   ("511.0", "Animation"),
   ("513.0", "Digital Design"),
   ("515.0", "Photography Instructional"),
   ("548.0", "MFA Thesis Exhibition"),
   ("561.0", "MFA Senior Critics"),
   ("562.0", "MFA Reviews"),
   ("565.0", "MFA Workshops"),
   ("569.0", "Photography Consumables"),
   ("592.0", "Senior Seminar")]

/-- `section_key`: the code with `".0"` appended when it does not
already end in `".0"` (line 125). -/
def sectionKey (c2 : String) : String :=
  if strEndsWith c2 ".0" then c2 else c2 ++ ".0"

/-- The subtotal-row pattern of line 124:
`c0 == '' and c2 and c2 != '' and safe_str(df.iloc[i,4]) == ''`
(the middle two conjuncts are the same non-emptiness test). -/
def isSubtotalRow (g : Grid) (i : ℕ) : Bool :=
  sAt g i 0 == "" && !(sAt g i 2 == "") && sAt g i 4 == ""

/-- Fund classification of the two lists. -/
inductive Fund | ug | grad
deriving DecidableEq

/-- The per-string fund decision used both on the subtotal row itself
(line 132/134) and on each row visited by the upward lookback
(line 140/143): `UNDERGRAD`/`UGRAD` first, then `GRADUATE`/`GRAD`. -/
def fundOf (s : String) : Option Fund :=
  if strContains (pyUpper s) "UNDERGRAD" || strContains (pyUpper s) "UGRAD" then
    some Fund.ug
  else if strContains (pyUpper s) "GRADUATE" || strContains (pyUpper s) "GRAD" then
    some Fund.grad
  else none

/-- The indices visited by `range(i - 1, max(i - 10, -1), -1)`
(line 138): `i-1` down to `i-9`, clipped at `0`. -/
def lookIdx (i : ℕ) : List ℕ :=
  (List.range' (i - min i 9) (min i 9)).reverse

/-- The upward lookback loop (lines 138–145): the fund of the first
row above (within `lookIdx`) whose fund column matches. -/
def lookbackFund (g : Grid) (i : ℕ) : Option Fund :=
  (lookIdx i).findSome? fun look => fundOf (sAt g look 1)

/-- The `if/elif/elif` chain of lines 132–145 for one subtotal row:
fund of column 1 if it matches, else the lookback when column 1 is
empty, else no assignment. -/
def classify (g : Grid) (i : ℕ) : Option Fund :=
  match fundOf (sAt g i 1) with
  | some f => some f
  | none => if sAt g i 1 = "" then lookbackFund g i else none

/-- Which list (if any) row `i` is appended to by the loop of
lines 119–145: only subtotal-pattern rows are considered. -/
def assignAt (g : Grid) (i : ℕ) : Option Fund :=
  if isSubtotalRow g i then classify g i else none

/-- A category record: the row snapshot plus the `name` and
`section_code` keys added at lines 128–129. -/
structure LineItem where
  data : RowData
  name : String
  section_code : String
deriving DecidableEq

/-- Build the category record for subtotal row `i` (lines 125–129):
name from `cat_map` via `section_key`, falling back to
`'Section {c2}'` with the raw code. -/
def mkItem (g : Grid) (i : ℕ) : LineItem :=
  let c2 := sAt g i 2
  { data := row g i
    name := (cat_map.lookup (sectionKey c2)).getD ("Section " ++ c2)
    section_code := c2 }

/-- The `ug_cats` list built by the loop of lines 119–145, in row
order. -/
def ugCats (g : Grid) : List LineItem :=
  (List.range g.length).filterMap fun i =>
    if assignAt g i = some Fund.ug then some (mkItem g i) else none

/-- The `grad_cats` list built by the loop of lines 119–145, in row
order. -/
def gradCats (g : Grid) : List LineItem :=
  (List.range g.length).filterMap fun i =>
    if assignAt g i = some Fund.grad then some (mkItem g i) else none

/-- A fund-total record: row snapshot plus the `name` key
(lines 156/159). -/
structure NamedRow where
  data : RowData
  name : String
deriving DecidableEq

/-- The fund-total scan of lines 150–159: the LAST row with fund code
`4118` (resp. `4119`) and a matching description wins, since each match
overwrites the variable. -/
def fundTotals (g : Grid) : Option NamedRow × Option NamedRow :=
  (List.range g.length).foldl
    (fun acc i =>
      let c0 := sAt g i 0
      let c1 := sAt g i 1
      if c0 == "4118" &&
          (strContains (pyUpper c1) "UGRAD" || strContains (pyUpper c1) "UNDERGRAD") then
        (some ⟨row g i, "Undergraduate Total"⟩, acc.2)
      else if c0 == "4119" && strContains (pyUpper c1) "GRAD" then
        (acc.1, some ⟨row g i, "Graduate Total"⟩)
      else acc)
    (none, none)

/-- The structured result of `parse_tracking_file` (lines 162–173);
the Python `{}` placeholders for unfound boundary rows are `none`.
`file_name` is a property of the path, not of the grid, and is outside
the embedding. -/
structure TrackingReport where
  period : String
  academic : Option RowData
  nonacademic : Option RowData
  ce_total : Option RowData
  total_exp : Option RowData
  ug_cats : List LineItem
  grad_cats : List LineItem
  ug_total : Option NamedRow
  grad_total : Option NamedRow
deriving DecidableEq

/-- `parse_tracking_file`: the whole extraction pass over the grid. -/
def parse_tracking_file (g : Grid) : TrackingReport where
  period := sAt g 1 0
  academic := (find_row g 4 "Academic Salaries" 0).map (row g)
  nonacademic := (find_row g 4 "Non-Academic Salaries" 0).map (row g)
  ce_total := (find_row g 0 "Subtotal - Current Expense" 0).map (row g)
  total_exp := (find_row g 0 "TOTAL EXPENDITURES" 0).map (row g)
  ug_cats := ugCats g
  grad_cats := gradCats g
  ug_total := (fundTotals g).1
  grad_total := (fundTotals g).2

/-- `pct(actuals, budget)` (line 178): `None` on zero budget, else the
percentage. -/
def pct (actuals budget : ℚ) : Option ℚ :=
  if budget = 0 then none else some (actuals / budget * 100)

/-- The structured content of the HTML `progress_bar` returns
(lines 188–212): either the "no budget" message (with the spent
amount) or the computed bar percentages. -/
inductive ProgressBar
  | noBudget (spent : ℚ)
  | bar (spentPct committedPct totalPct labelPct : ℚ) (over : Bool)
deriving DecidableEq

/-- `progress_bar(spent, budget, committed)`: the "no budget" branch
guards `budget <= 0` before any division happens. -/
def progress_bar (spent budget committed : ℚ) : ProgressBar :=
  if budget ≤ 0 then ProgressBar.noBudget spent
  else
    let spentPct := min (spent / budget * 100) 100
    let committedPct := min (committed / budget * 100) (max 0 (100 - spentPct))
    let totalPct := (spent + committed) / budget * 100
    ProgressBar.bar spentPct committedPct totalPct (spent / budget * 100) (totalPct > 100)

/-- Does any cell of the row contain the text, case-insensitively? -/
def rowHasText (r : List Cell) (t : String) : Bool :=
  r.any fun c => strContains (pyUpper c.sval) (pyUpper t)

/-- Does any row of the grid contain the text, case-insensitively? -/
def gridHasText (g : Grid) (t : String) : Bool :=
  List.any g fun r => rowHasText r t

/-- The subtotal-row pattern as the spec words it: primary label
empty, secondary label empty, code non-empty and not the `"0.0"`
sentinel, detail label empty. -/
def specSubtotalRow (g : Grid) (i : ℕ) : Bool :=
  sAt g i 0 == "" && sAt g i 1 == "" && !(sAt g i 2 == "") &&
    !(sAt g i 2 == "0.0") && sAt g i 4 == ""

/-- A grid with one undergraduate subtotal row and no occurrence of
"CURRENT EXPENSE" anywhere. -/
def exNoCE : Grid :=
  [[blankCell, ⟨"F A UNDERGRAD", 0⟩, ⟨"50", 50⟩, blankCell, blankCell]]

/-- A grid with a subtotal-pattern row but no fund text anywhere. -/
def exFundless : Grid :=
  [[blankCell, blankCell, ⟨"50", 50⟩, blankCell, blankCell]]

/-- A row matching the code's subtotal pattern while violating the
spec's: non-empty secondary label and the `"0.0"` sentinel code. -/
def exSpecSub : Grid :=
  [[blankCell, ⟨"F A GRADUATE", 0⟩, ⟨"0.0", 0⟩, blankCell, blankCell]]

/-- Fund context at row 0, then ten blank rows, then a blank-fund
subtotal row at index 11 (11 rows below the context row). -/
def exFar : Grid :=
  [[blankCell, ⟨"F A UNDERGRAD", 0⟩], [], [], [], [], [], [], [], [], [], [],
   [blankCell, blankCell, ⟨"50", 50⟩, blankCell, blankCell]]

/-- An undergraduate subtotal row with the unmapped code "999.0". -/
def exRawCode : Grid :=
  [[blankCell, ⟨"F A UNDERGRAD", 0⟩, ⟨"999.0", 999⟩, blankCell, blankCell]]

/-- An undergraduate subtotal row with the mapped code "506". -/
def exMapped : Grid :=
  [[blankCell, ⟨"F A UNDERGRAD", 0⟩, ⟨"506", 506⟩, blankCell, blankCell]]

/-- A one-cell grid matching none of the boundary labels. -/
def exPlain : Grid := [[⟨"hello", 0⟩]]

/-- A grid containing the "TOTAL EXPENDITURES" boundary (column 0) but
none of the other three boundary labels. -/
def exOnlyTotal : Grid :=
  [[⟨"TOTAL EXPENDITURES", 0⟩, blankCell, blankCell, blankCell, blankCell, ⟨"4241604.0", 4241604⟩]]

/-- A subtotal row whose fund column is non-empty but matches no fund
substring. -/
def exRestricted : Grid :=
  [[blankCell, ⟨"RESTRICTED FUNDS", 0⟩, ⟨"50", 50⟩, blankCell, blankCell]]

example : strContains "F A UNDERGRAD" "GRAD" = true := by decide
example : fundOf "F A UNDERGRAD" = some Fund.ug := by decide
example : fundOf "f a graduate" = some Fund.grad := by decide
example : fundOf "" = none := by decide
example : sectionKey "506" = "506.0" := by decide
example : sectionKey "999.0" = "999.0" := by decide
example : cat_map.lookup "506.0" = some "Printmaking" := by decide
example : lookIdx 11 = [10, 9, 8, 7, 6, 5, 4, 3, 2] := by decide
example : lookIdx 3 = [2, 1, 0] := by decide

lemma mem_lookIdx {j i : ℕ} (h : j ∈ lookIdx i) : j < i ∧ i ≤ j + 10 := by
  unfold lookIdx at h
  have h' := List.mem_range'_1.mp (List.mem_reverse.mp h)
  omega

lemma classify_eq_none (g : Grid) (i : ℕ)
    (h0 : fundOf (sAt g i 1) = none)
    (hlook : ∀ j, j < i → i ≤ j + 10 → fundOf (sAt g j 1) = none) :
    classify g i = none := by
  unfold classify
  rw [h0]
  show (if sAt g i 1 = "" then lookbackFund g i else none) = none
  split
  · apply List.findSome?_eq_none_iff.mpr
    intro j hj
    obtain ⟨hj1, hj2⟩ := mem_lookIdx hj
    exact hlook j hj1 hj2
  · rfl

lemma find_row_eq_none (g : Grid) (col : ℕ) (pat : String)
    (h : ∀ i, i < g.length → strContains (pyLower (sAt g i col)) (pyLower pat) = false) :
    find_row g col pat 0 = none := by
  unfold find_row
  apply List.find?_eq_none.mpr
  intro i hi
  have hlt : i < g.length := List.mem_range.mp (List.mem_of_mem_drop hi)
  simp [h i hlt]

/-- C1 counterexample: a grid with no occurrence of "CURRENT EXPENSE"
in any row whose extraction nevertheless produces a non-empty
undergraduate category list — the category loop never consults the
"CURRENT EXPENSE" header. -/
theorem c1_counterexample :
    gridHasText exNoCE "CURRENT EXPENSE" = false ∧
    (parse_tracking_file exNoCE).ug_cats.length = 1 := by
  constructor
  · decide
  · decide

/-- C1 (amended): extraction is total (never raises), and the category
lists are empty exactly when no fund text drives them: for every grid
in which no row's fund-description column (column 1) matches any of
the fund substrings, `parse_tracking_file` returns empty `ug_cats` and
`grad_cats` — independently of whether "CURRENT EXPENSE" occurs. -/
theorem c1_no_fund_text_empty_cats (g : Grid)
    (h : ∀ i, i < g.length → fundOf (sAt g i 1) = none) :
    (parse_tracking_file g).ug_cats = [] ∧ (parse_tracking_file g).grad_cats = [] := by
  have key : ∀ i ∈ List.range g.length, assignAt g i = none := by
    intro i hi
    have hi' := List.mem_range.mp hi
    have hc : classify g i = none :=
      classify_eq_none g i (h i hi') (fun j hj _ => h j (Nat.lt_trans hj hi'))
    unfold assignAt
    rw [hc]
    split <;> rfl
  constructor
  · show ugCats g = []
    exact List.filterMap_eq_nil_iff.mpr (fun i hi => by simp [key i hi])
  · show gradCats g = []
    exact List.filterMap_eq_nil_iff.mpr (fun i hi => by simp [key i hi])

/-- C1 witness: a concrete fund-text-free grid with a subtotal row
still yields empty category lists. -/
theorem c1_witness :
    (parse_tracking_file exFundless).ug_cats = [] ∧
    (parse_tracking_file exFundless).grad_cats = [] :=
  c1_no_fund_text_empty_cats exFundless (by decide)

/-- C2 counterexample: a row with a non-empty secondary label column
and the sentinel code "0.0" IS classified as a subtotal row by the
code, though the spec's four-condition pattern rejects it. -/
theorem c2_counterexample :
    isSubtotalRow exSpecSub 0 = true ∧ specSubtotalRow exSpecSub 0 = false := by
  constructor
  · decide
  · decide

/-- C2 (amended): a row is classified as a subtotal row iff its
primary label column (0) is empty, its code column (2) is non-empty,
and its detail label column (4) is empty; the secondary label column
and the "0.0" sentinel are not consulted. -/
theorem c2_subtotal_characterization (g : Grid) (i : ℕ) :
    isSubtotalRow g i = true ↔
      (sAt g i 0 = "" ∧ sAt g i 2 ≠ "" ∧ sAt g i 4 = "") := by
  unfold isSubtotalRow
  simp [and_assoc]

/-- C2 witness: the characterization at a concrete row. -/
theorem c2_witness :
    isSubtotalRow exSpecSub 0 = true ↔
      (sAt exSpecSub 0 0 = "" ∧ sAt exSpecSub 0 2 ≠ "" ∧ sAt exSpecSub 0 4 = "") :=
  c2_subtotal_characterization exSpecSub 0

/-- C3: a subtotal row with an empty fund-description column, all of
whose rows within 10 rows above have a non-matching fund column, is
assigned to neither fund group (the lookback visits only rows at
distance 1–9, so it finds nothing). -/
theorem c3_far_context_dropped (g : Grid) (i : ℕ)
    (hsub : isSubtotalRow g i = true)
    (hempty : sAt g i 1 = "")
    (hfar : ∀ j, j < i → i ≤ j + 10 → fundOf (sAt g j 1) = none) :
    assignAt g i = none := by
  have h0 : fundOf (sAt g i 1) = none := by rw [hempty]; decide
  have hc : classify g i = none := classify_eq_none g i h0 hfar
  unfold assignAt
  rw [hc]
  split <;> rfl

/-- C3 witness: fund context 11 rows above a blank-fund subtotal row;
the category is dropped. -/
theorem c3_witness : assignAt exFar 11 = none :=
  c3_far_context_dropped exFar 11 (by decide) (by decide) (by decide)

/-- C4 counterexample: the unmapped code "999.0" yields the name
"Section 999.0" — the raw code, with the trailing ".0" NOT stripped,
contrary to the claimed "Section 999". -/
theorem c4_counterexample :
    (parse_tracking_file exRawCode).ug_cats.map LineItem.name = ["Section 999.0"] ∧
    ("Section 999.0" : String) ≠ "Section 999" := by
  constructor
  · decide
  · decide

/-- C4 (amended): for a subtotal row whose normalized code is absent
from `cat_map`, the item name is "Section " followed by the raw code
column text, exactly as it appears (no ".0" stripping). -/
theorem c4_unmapped_raw_name (g : Grid) (i : ℕ)
    (h : cat_map.lookup (sectionKey (sAt g i 2)) = none) :
    (mkItem g i).name = "Section " ++ sAt g i 2 := by
  simp [mkItem, h]

/-- C4 witness: the unmapped code "999.0" at a concrete row. -/
theorem c4_witness : (mkItem exRawCode 0).name = "Section " ++ sAt exRawCode 0 2 :=
  c4_unmapped_raw_name exRawCode 0 (by decide)

/-- C5: for a subtotal row whose code, normalized by appending ".0"
when missing, is a key of `cat_map`, the item name is the mapped
human-readable name. -/
theorem c5_mapped_name (g : Grid) (i : ℕ) (nm : String)
    (h : cat_map.lookup (sectionKey (sAt g i 2)) = some nm) :
    (mkItem g i).name = nm := by
  simp [mkItem, h]

/-- C5 witness: code "506" normalizes to "506.0" and yields
"Printmaking". -/
theorem c5_witness : (mkItem exMapped 0).name = "Printmaking" :=
  c5_mapped_name exMapped 0 "Printmaking" (by decide)

/-- C6: `pct` on a zero budget returns `none` (no division), and
`progress_bar` on a zero-or-negative budget returns the "no budget"
rendering rather than computing any quotient. -/
theorem c6_zero_budget_guard (a spent committed budget : ℚ) (hb : budget ≤ 0) :
    pct a 0 = none ∧ progress_bar spent budget committed = ProgressBar.noBudget spent := by
  constructor
  · simp [pct]
  · unfold progress_bar
    rw [if_pos hb]

/-- C6 witness: concrete zero-budget inputs. -/
theorem c6_witness :
    pct 5 0 = none ∧ progress_bar 3 0 4 = ProgressBar.noBudget 3 :=
  c6_zero_budget_guard 5 3 4 0 (by norm_num)

/-- C7: per boundary label — whenever one of the four required
boundary labels matches no row of the grid (case-insensitively, in its
designated column), the corresponding field of the extraction result
is empty (`none`), independently of the other labels; and extraction
is total. -/
theorem c7_missing_boundary_empty_field (g : Grid) :
    ((∀ i, i < g.length →
        strContains (pyLower (sAt g i 4)) (pyLower "Academic Salaries") = false) →
      (parse_tracking_file g).academic = none) ∧
    ((∀ i, i < g.length →
        strContains (pyLower (sAt g i 4)) (pyLower "Non-Academic Salaries") = false) →
      (parse_tracking_file g).nonacademic = none) ∧
    ((∀ i, i < g.length →
        strContains (pyLower (sAt g i 0)) (pyLower "Subtotal - Current Expense") = false) →
      (parse_tracking_file g).ce_total = none) ∧
    ((∀ i, i < g.length →
        strContains (pyLower (sAt g i 0)) (pyLower "TOTAL EXPENDITURES") = false) →
      (parse_tracking_file g).total_exp = none) := by
  refine ⟨fun h1 => ?_, fun h2 => ?_, fun h3 => ?_, fun h4 => ?_⟩
  · show (find_row g 4 "Academic Salaries" 0).map (row g) = none
    rw [find_row_eq_none g 4 "Academic Salaries" h1]; rfl
  · show (find_row g 4 "Non-Academic Salaries" 0).map (row g) = none
    rw [find_row_eq_none g 4 "Non-Academic Salaries" h2]; rfl
  · show (find_row g 0 "Subtotal - Current Expense" 0).map (row g) = none
    rw [find_row_eq_none g 0 "Subtotal - Current Expense" h3]; rfl
  · show (find_row g 0 "TOTAL EXPENDITURES" 0).map (row g) = none
    rw [find_row_eq_none g 0 "TOTAL EXPENDITURES" h4]; rfl

/-- C7 witness: a grid containing only the "TOTAL EXPENDITURES"
boundary; each of the three absent labels makes its own field empty,
independently of the label that is present. -/
theorem c7_witness :
    (parse_tracking_file exOnlyTotal).academic = none ∧
    (parse_tracking_file exOnlyTotal).nonacademic = none ∧
    (parse_tracking_file exOnlyTotal).ce_total = none :=
  ⟨(c7_missing_boundary_empty_field exOnlyTotal).1 (by decide),
   (c7_missing_boundary_empty_field exOnlyTotal).2.1 (by decide),
   (c7_missing_boundary_empty_field exOnlyTotal).2.2.1 (by decide)⟩

/-- C8: extraction is deterministic — it is a pure function of the
grid, so equal inputs give structurally equal `TrackingReport`s. -/
theorem c8_deterministic (g1 g2 : Grid) (h : g1 = g2) :
    parse_tracking_file g1 = parse_tracking_file g2 := by
  rw [h]

/-- C8 witness: two runs on the same concrete grid agree. -/
theorem c8_witness : parse_tracking_file exNoCE = parse_tracking_file exNoCE :=
  c8_deterministic exNoCE exNoCE rfl

/-- C9: a subtotal-pattern row whose fund column is non-empty but
contains none of the four fund substrings is assigned to neither
group, and no lookback is consulted (the lookback branch requires the
fund column to be exactly empty). -/
theorem c9_nonmatching_fund_dropped (g : Grid) (i : ℕ)
    (hne : sAt g i 1 ≠ "")
    (h1 : strContains (pyUpper (sAt g i 1)) "UNDERGRAD" = false)
    (h2 : strContains (pyUpper (sAt g i 1)) "UGRAD" = false)
    (h3 : strContains (pyUpper (sAt g i 1)) "GRADUATE" = false)
    (h4 : strContains (pyUpper (sAt g i 1)) "GRAD" = false) :
    classify g i = none ∧ assignAt g i = none := by
  have h0 : fundOf (sAt g i 1) = none := by
    unfold fundOf
    rw [h1, h2, h3, h4]
    rfl
  have hc : classify g i = none := by
    unfold classify
    rw [h0]
    show (if sAt g i 1 = "" then lookbackFund g i else none) = none
    simp [hne]
  refine ⟨hc, ?_⟩
  unfold assignAt
  rw [hc]
  split <;> rfl

/-- C9 witness: fund text "RESTRICTED FUNDS" matches no fund
substring; the row is dropped. -/
theorem c9_witness : classify exRestricted 0 = none ∧ assignAt exRestricted 0 = none :=
  c9_nonmatching_fund_dropped exRestricted 0
    (by decide) (by decide) (by decide) (by decide) (by decide)

/-- C10: undergraduate matching has precedence — any fund string
containing "UNDERGRAD" or "UGRAD" (upper-cased) is decided as
undergraduate by `fundOf`, the per-string test used both on the row
itself and on every row visited by the lookback, and the row's
classification is undergraduate, never graduate. -/
theorem c10_ug_precedence (g : Grid) (i : ℕ)
    (h : strContains (pyUpper (sAt g i 1)) "UNDERGRAD" = true ∨
         strContains (pyUpper (sAt g i 1)) "UGRAD" = true) :
    fundOf (sAt g i 1) = some Fund.ug ∧ classify g i = some Fund.ug := by
  have hf : fundOf (sAt g i 1) = some Fund.ug := by
    unfold fundOf
    rcases h with h | h <;> rw [h] <;> simp
  refine ⟨hf, ?_⟩
  unfold classify
  rw [hf]

/-- C10 witness: "F A UNDERGRAD" (which contains "GRAD" as a
substring) is still classified undergraduate. -/
theorem c10_witness :
    fundOf (sAt exNoCE 0 1) = some Fund.ug ∧ classify exNoCE 0 = some Fund.ug :=
  c10_ug_precedence exNoCE 0 (Or.inl (by decide))
